import Mathlib

/-!
Shallow embedding of `src/requires.py` from juju-solutions/interface-openstack:
the requirer side of the OpenStack integration interface layer
(`OpenStackIntegrationRequires`, a `charms.reactive` `Endpoint`).

The relation channel carries JSON-decoded values; each received field is
either absent (the framework's data views return `None` for missing keys),
`None`, a string, or a boolean.  We model such values by `Val`, Python
truthiness by `truthy`, and Python's value-returning `or` / `and` / `not`
by `pyOr` / `pyAnd` / `pyNot`.

`self.relations[0]` raises `IndexError` when the endpoint has no active
relation, so every accessor is embedded as `Except PyErr Val`, where
`.error .indexError` marks the raised exception and `.ok v` a returned
value (`.ok .none` is a returned Python `None`, distinct from raising).
-/

namespace OpenStack

/-- A Python value as received over the relation data bus: `None`, a string,
or a boolean. -/
inductive Val where
  | none
  | str (s : String)
  | bool (b : Bool)
  deriving DecidableEq

/-- Python truthiness: `None` and the empty string and `False` are falsy. -/
def truthy : Val → Bool
  | .none => false
  | .str s => s != ""
  | .bool b => b

/-- Python `a or b`: returns `a` when `a` is truthy, else `b`. -/
def pyOr (a b : Val) : Val := if truthy a then a else b

/-- Python `a and b`: returns `b` when `a` is truthy, else `a`. -/
def pyAnd (a b : Val) : Val := if truthy a then b else a

/-- Python `not a`: a boolean, the negated truthiness of `a`. -/
def pyNot (a : Val) : Val := .bool (!truthy a)

/-- The FieldSet: one slot per relation-data key read by the source.  A key
the peer never sent reads as `Val.none`, matching the framework data views
which return `None` for missing keys. -/
structure Received where
  auth_url : Val
  region : Val
  username : Val
  password : Val
  user_domain_name : Val
  project_domain_name : Val
  project_name : Val
  endpoint_tls_ca : Val
  subnet_id : Val
  floating_network_id : Val
  lb_method : Val
  manage_security_groups : Val
  node_security_group : Val
  deriving DecidableEq

/-- One relation to the provider application; `received` embeds
`joined_units.received`, the combined view of data published by its units. -/
structure PeerConnection where
  received : Received
  deriving DecidableEq

/-- The three reactive flags of this endpoint:
`endpoint.{endpoint_name}.joined`, `.changed` and `.ready`. -/
structure Flags where
  joined : Bool
  changed : Bool
  ready : Bool
  deriving DecidableEq

/-- State of an `OpenStackIntegrationRequires` endpoint instance: its list
of relations and the flag store restricted to its three flags. -/
structure Endpoint where
  relations : List PeerConnection
  flags : Flags
  deriving DecidableEq

/-- A Python exception surfaced by the embedded code. -/
inductive PyErr where
  | indexError
  deriving DecidableEq

namespace Received

/-- Body of the `auth_url` property on the received FieldSet:
`self._received['auth_url']`. -/
def auth_url_v (r : Received) : Val := r.auth_url

/-- Body of the `region` property: `self._received['region']`. -/
def region_v (r : Received) : Val := r.region

/-- Body of the `username` property: `self._received['username']`. -/
def username_v (r : Received) : Val := r.username

/-- Body of the `password` property: `self._received['password']`. -/
def password_v (r : Received) : Val := r.password

/-- Body of the `user_domain_name` property:
`self._received['user_domain_name']`. -/
def user_domain_name_v (r : Received) : Val := r.user_domain_name

/-- Body of the `project_domain_name` property:
`self._received['project_domain_name']`. -/
def project_domain_name_v (r : Received) : Val := r.project_domain_name

/-- Body of the `project_name` property: `self._received['project_name']`. -/
def project_name_v (r : Received) : Val := r.project_name

/-- Body of the `endpoint_tls_ca` property:
`self._received['endpoint_tls_ca'] or None`. -/
def endpoint_tls_ca_v (r : Received) : Val := pyOr r.endpoint_tls_ca .none

/-- Body of the `subnet_id` property: `self._received['subnet_id']`. -/
def subnet_id_v (r : Received) : Val := r.subnet_id

/-- Body of the `floating_network_id` property:
`self._received['floating_network_id']`. -/
def floating_network_id_v (r : Received) : Val := r.floating_network_id

/-- Body of the `lb_method` property: `self._received['lb_method']`. -/
def lb_method_v (r : Received) : Val := r.lb_method

/-- Body of the `manage_security_groups` property:
`self._received['manage_security_groups'] or False`. -/
def manage_security_groups_v (r : Received) : Val :=
  pyOr r.manage_security_groups (.bool false)

/-- Body of the `node_security_group` property:
`self._received['node_security_group']`. -/
def node_security_group_v (r : Received) : Val := r.node_security_group

/-- Body of the `is_ready` property evaluated on the FieldSet (with an
active connection every property reads the same `_received` view):
`sec_grp = self.node_security_group or not self.manage_security_groups`,
then `sec_grp and all(field is not None for field in [auth_url, username,
password, user_domain_name, project_domain_name, project_name])`. -/
def is_ready_v (r : Received) : Val :=
  let sec_grp := pyOr r.node_security_group_v (pyNot r.manage_security_groups_v)
  pyAnd sec_grp (.bool
    (r.auth_url_v != Val.none &&
     r.username_v != Val.none &&
     r.password_v != Val.none &&
     r.user_domain_name_v != Val.none &&
     r.project_domain_name_v != Val.none &&
     r.project_name_v != Val.none))

end Received

namespace Endpoint

/-- The `_received` helper: `self.relations[0].joined_units.received`.
Indexing `relations[0]` raises `IndexError` when no relation exists. -/
def _received (e : Endpoint) : Except PyErr Received :=
  match e.relations with
  | [] => .error .indexError
  | pc :: _ => .ok pc.received

/-- The `auth_url` property. -/
def auth_url (e : Endpoint) : Except PyErr Val :=
  e._received.map Received.auth_url_v

/-- The `region` property. -/
def region (e : Endpoint) : Except PyErr Val :=
  e._received.map Received.region_v

/-- The `username` property. -/
def username (e : Endpoint) : Except PyErr Val :=
  e._received.map Received.username_v

/-- The `password` property. -/
def password (e : Endpoint) : Except PyErr Val :=
  e._received.map Received.password_v

/-- The `user_domain_name` property. -/
def user_domain_name (e : Endpoint) : Except PyErr Val :=
  e._received.map Received.user_domain_name_v

/-- The `project_domain_name` property. -/
def project_domain_name (e : Endpoint) : Except PyErr Val :=
  e._received.map Received.project_domain_name_v

/-- The `project_name` property. -/
def project_name (e : Endpoint) : Except PyErr Val :=
  e._received.map Received.project_name_v

/-- The `endpoint_tls_ca` property. -/
def endpoint_tls_ca (e : Endpoint) : Except PyErr Val :=
  e._received.map Received.endpoint_tls_ca_v

/-- The `subnet_id` property. -/
def subnet_id (e : Endpoint) : Except PyErr Val :=
  e._received.map Received.subnet_id_v

/-- The `floating_network_id` property. -/
def floating_network_id (e : Endpoint) : Except PyErr Val :=
  e._received.map Received.floating_network_id_v

/-- The `lb_method` property. -/
def lb_method (e : Endpoint) : Except PyErr Val :=
  e._received.map Received.lb_method_v

/-- The `manage_security_groups` property. -/
def manage_security_groups (e : Endpoint) : Except PyErr Val :=
  e._received.map Received.manage_security_groups_v

/-- The `node_security_group` property. -/
def node_security_group (e : Endpoint) : Except PyErr Val :=
  e._received.map Received.node_security_group_v

/-- The `is_ready` property on the endpoint: every property it reads goes
through the same `_received` view, so it raises exactly when `_received`
raises and otherwise evaluates the predicate on the FieldSet. -/
def is_ready (e : Endpoint) : Except PyErr Val :=
  e._received.map Received.is_ready_v

/-- Reading the `is_ready` property in a state-passing rendering: the
property body contains no flag writes and no mutation, so the state
component is returned unchanged. -/
def is_ready_eval (e : Endpoint) : Except PyErr Val × Endpoint :=
  (e.is_ready, e)

/-- The `check_ready` handler (`@when('endpoint.{endpoint_name}.changed')`):
`toggle_flag(self.expand_name('ready'), self.is_ready)` sets the `ready`
flag to the truthiness of `self.is_ready`, then
`clear_flag(self.expand_name('changed'))` clears the `changed` flag.
Evaluating `self.is_ready` raises when no relation exists. -/
def check_ready (e : Endpoint) : Except PyErr Endpoint := do
  let v ← e.is_ready
  let e1 := { e with flags := { e.flags with ready := truthy v } }
  return { e1 with flags := { e1.flags with changed := false } }

/-- The `remove_ready` handler
(`@when_not('endpoint.{endpoint_name}.joined')`):
`clear_flag(self.expand_name('ready'))`. -/
def remove_ready (e : Endpoint) : Endpoint :=
  { e with flags := { e.flags with ready := false } }

end Endpoint

/-- A dispatcher step that runs one of the component's two reactive
handlers when its flag guard holds: `check_ready` runs when the `changed`
flag is set, `remove_ready` runs when the `joined` flag is not set. -/
inductive HStep : Endpoint → Endpoint → Prop where
  | check_ready (e e2 : Endpoint) (hg : e.flags.changed = true)
      (hr : e.check_ready = .ok e2) : HStep e e2
  | remove_ready (e : Endpoint) (hg : e.flags.joined = false) :
      HStep e e.remove_ready

/-- Modelled from the spec: the host framework's externally driven
transitions on the endpoint, absent from `src/` (the reactive relation bus
is the host framework).  Per the source docstring and the spec's state
machine: establishing the relation sets the `joined` flag and creates the
single PeerConnection; tearing it down clears `joined` and destroys the
connection; arrival of new peer data mutates the FieldSet (last value wins)
and sets the `changed` flag. -/
inductive Step : Endpoint → Endpoint → Prop where
  | handler (e e2 : Endpoint) (h : HStep e e2) : Step e e2
  | join (e : Endpoint) (pc : PeerConnection) :
      Step e { relations := [pc], flags := { e.flags with joined := true } }
  | depart (e : Endpoint) :
      Step e { relations := [], flags := { e.flags with joined := false } }
  | data_changed (e : Endpoint) (pc : PeerConnection) (h : e.relations ≠ []) :
      Step e { relations := [pc], flags := { e.flags with changed := true } }

/-- The initial endpoint state: no relation, all flags clear. -/
def initE : Endpoint := { relations := [], flags := ⟨false, false, false⟩ }

/-- States of the flag state machine reachable from the initial state. -/
inductive Reachable : Endpoint → Prop where
  | init : Reachable initE
  | step (e e2 : Endpoint) (h : Reachable e) (hs : Step e e2) : Reachable e2

/-- A quiescent (observable) state: no enabled handler would change it.
The reactive dispatcher runs enabled handlers until the flag state
settles, so the spec's state machine consists of quiescent states. -/
def Quiescent (e : Endpoint) : Prop := ∀ e2, HStep e e2 → e2 = e

/-- Boolean characterization of the readiness predicate: the security gate
(`node_security_group` truthy or `manage_security_groups` falsy) and the
six presence checks. -/
def readyBool (r : Received) : Bool :=
  (truthy r.node_security_group || !truthy r.manage_security_groups) &&
  (r.auth_url != Val.none && r.username != Val.none && r.password != Val.none &&
   r.user_domain_name != Val.none && r.project_domain_name != Val.none &&
   r.project_name != Val.none)

/-- Scenario A FieldSet from the spec: the six required fields present,
everything else absent. -/
def rScenarioA : Received :=
  { auth_url := .str "u", region := .none, username := .str "a",
    password := .str "p", user_domain_name := .str "d1",
    project_domain_name := .str "d2", project_name := .str "proj",
    endpoint_tls_ca := .none, subnet_id := .none, floating_network_id := .none,
    lb_method := .none, manage_security_groups := .none,
    node_security_group := .none }

/-- An endpoint joined to one provider publishing Scenario A's FieldSet. -/
def eScenarioA : Endpoint :=
  { relations := [⟨rScenarioA⟩], flags := ⟨true, false, false⟩ }

/-- Scenario A with `manage_security_groups` true and `node_security_group`
the empty string: non-null but falsy. -/
def rEmptyNsg : Received :=
  { rScenarioA with manage_security_groups := .bool true,
                    node_security_group := .str "" }

/-- An endpoint joined to one provider publishing `rEmptyNsg`. -/
def eEmptyNsg : Endpoint :=
  { relations := [⟨rEmptyNsg⟩], flags := ⟨true, false, false⟩ }

/-- Scenario D FieldSet from the spec: `password` absent, rest as A. -/
def rScenarioD : Received := { rScenarioA with password := .none }

/-- An endpoint joined to one provider publishing Scenario D's FieldSet. -/
def eScenarioD : Endpoint :=
  { relations := [⟨rScenarioD⟩], flags := ⟨true, false, false⟩ }

/-- Scenario A's endpoint with the `changed` flag pending. -/
def eChangedA : Endpoint :=
  { relations := [⟨rScenarioA⟩], flags := ⟨true, true, false⟩ }

/-- The state `check_ready` produces from `eChangedA`. -/
def eAfterCheckA : Endpoint :=
  { relations := [⟨rScenarioA⟩], flags := ⟨true, false, true⟩ }

/-- A FieldSet with empty-string `endpoint_tls_ca` and `subnet_id` and a
non-empty `region`, rest as Scenario A. -/
def rOptionalStrings : Received :=
  { rScenarioA with endpoint_tls_ca := .str "", subnet_id := .str "",
                    region := .str "r1" }

/-- An endpoint joined to one provider publishing `rOptionalStrings`. -/
def eOptionalStrings : Endpoint :=
  { relations := [⟨rOptionalStrings⟩], flags := ⟨true, false, false⟩ }

/-- Scenario A with a truthy non-boolean `manage_security_groups`. -/
def rStringMsg : Received :=
  { rScenarioA with manage_security_groups := .str "yes" }

/-- An endpoint joined to one provider publishing `rStringMsg`. -/
def eStringMsg : Endpoint :=
  { relations := [⟨rStringMsg⟩], flags := ⟨true, false, false⟩ }

/-- Scenario A's FieldSet with differing optional fields, used to compare
readiness across FieldSets that agree on the relevant fields. -/
def rScenarioAOpt : Received :=
  { rScenarioA with region := .str "r2", endpoint_tls_ca := .str "ca",
                    subnet_id := .str "sn", floating_network_id := .str "fn",
                    lb_method := .str "ROUND_ROBIN" }

/-- With at least one relation, `_received` yields the head relation's data. -/
theorem received_eq (e : Endpoint) (pc : PeerConnection)
    (rest : List PeerConnection) (h : e.relations = pc :: rest) :
    e._received = .ok pc.received := by
  unfold Endpoint._received
  rw [h]

/-- With at least one relation, mapping an accessor body over `_received`
yields its value on the head relation's data. -/
theorem map_received (e : Endpoint) (pc : PeerConnection)
    (rest : List PeerConnection) (h : e.relations = pc :: rest)
    (f : Received → Val) : e._received.map f = .ok (f pc.received) := by
  rw [received_eq e pc rest h]
  rfl

/-- The truthiness of the coerced `manage_security_groups` accessor value
equals the truthiness of the raw received value. -/
theorem truthy_manage_security_groups_v (r : Received) :
    truthy r.manage_security_groups_v = truthy r.manage_security_groups := by
  unfold Received.manage_security_groups_v pyOr
  cases h : truthy r.manage_security_groups with
  | true => simp [h]
  | false => simp [h, truthy]

/-- `is_ready` always evaluates to a genuine boolean, the one computed by
`readyBool`. -/
theorem is_ready_v_eq_readyBool (r : Received) :
    r.is_ready_v = .bool (readyBool r) := by
  unfold Received.is_ready_v readyBool Received.node_security_group_v
    Received.auth_url_v Received.username_v Received.password_v
    Received.user_domain_name_v Received.project_domain_name_v
    Received.project_name_v pyOr pyAnd pyNot
  rw [truthy_manage_security_groups_v]
  cases h1 : truthy r.node_security_group with
  | true => simp [h1]
  | false =>
    cases h2 : truthy r.manage_security_groups with
    | true => simp [h1, h2, truthy]
    | false => simp [h1, h2, truthy]

/-- With at least one relation, `is_ready` returns the predicate value on
the head relation's FieldSet. -/
theorem is_ready_eq (e : Endpoint) (pc : PeerConnection)
    (rest : List PeerConnection) (h : e.relations = pc :: rest) :
    e.is_ready = .ok pc.received.is_ready_v := by
  unfold Endpoint.is_ready
  exact map_received e pc rest h _

/-- C1 counterexample: `rEmptyNsg` has all six required fields present and
`node_security_group` equal to the empty string, which is non-null, so the
claim's condition holds; yet `is_ready` returns False, because the code
tests the truthiness of `node_security_group`, not nullness. -/
theorem c1_counterexample :
    rEmptyNsg.node_security_group ≠ Val.none ∧
    rEmptyNsg.auth_url ≠ Val.none ∧ rEmptyNsg.username ≠ Val.none ∧
    rEmptyNsg.password ≠ Val.none ∧ rEmptyNsg.user_domain_name ≠ Val.none ∧
    rEmptyNsg.project_domain_name ≠ Val.none ∧
    rEmptyNsg.project_name ≠ Val.none ∧
    eEmptyNsg.is_ready = .ok (Val.bool false) := by
  refine ⟨?_, ?_, ?_, ?_, ?_, ?_, ?_, rfl⟩ <;> decide

/-- C1 (corrected): with an active connection, `is_ready` returns True
exactly when `node_security_group` is truthy (non-null, non-empty,
non-false) or `manage_security_groups` is falsy (which is exactly when the
`manage_security_groups` accessor equals False), and all six required
fields are non-null. -/
theorem c1_is_ready_truthiness_iff (e : Endpoint) (pc : PeerConnection)
    (rest : List PeerConnection) (h : e.relations = pc :: rest) :
    e.is_ready = .ok (Val.bool true) ↔
      ((truthy pc.received.node_security_group = true ∨
        truthy pc.received.manage_security_groups = false) ∧
       pc.received.auth_url ≠ Val.none ∧ pc.received.username ≠ Val.none ∧
       pc.received.password ≠ Val.none ∧
       pc.received.user_domain_name ≠ Val.none ∧
       pc.received.project_domain_name ≠ Val.none ∧
       pc.received.project_name ≠ Val.none) := by
  rw [is_ready_eq e pc rest h, is_ready_v_eq_readyBool]
  simp only [Except.ok.injEq, Val.bool.injEq, readyBool, Bool.and_eq_true,
    Bool.or_eq_true, Bool.not_eq_true', bne_iff_ne, ne_eq]
  tauto

/-- C1 witness: Scenario A's endpoint satisfies the corrected condition and
`is_ready` returns True there. -/
theorem c1_witness : eScenarioA.is_ready = .ok (Val.bool true) :=
  (c1_is_ready_truthiness_iff eScenarioA ⟨rScenarioA⟩ [] rfl).mpr (by decide)

/-- C2 (confirmed): with an active connection, whenever one of the six
required fields is null/absent, `is_ready` returns False. -/
theorem c2_missing_required_not_ready (e : Endpoint) (pc : PeerConnection)
    (rest : List PeerConnection) (h : e.relations = pc :: rest)
    (hmiss : pc.received.auth_url = Val.none ∨
      pc.received.username = Val.none ∨ pc.received.password = Val.none ∨
      pc.received.user_domain_name = Val.none ∨
      pc.received.project_domain_name = Val.none ∨
      pc.received.project_name = Val.none) :
    e.is_ready = .ok (Val.bool false) := by
  rw [is_ready_eq e pc rest h, is_ready_v_eq_readyBool]
  have hb : readyBool pc.received = false := by
    unfold readyBool
    rcases hmiss with h' | h' | h' | h' | h' | h' <;> simp [h']
  rw [hb]

/-- C2 witness: Scenario D (the `password` field absent) is not ready. -/
theorem c2_witness : eScenarioD.is_ready = .ok (Val.bool false) :=
  c2_missing_required_not_ready eScenarioD ⟨rScenarioD⟩ [] rfl
    (.inr (.inr (.inl (by decide))))

/-- C3 counterexample: in the endpoint state with zero active
PeerConnections, every field accessor (and `is_ready`) raises `IndexError`
from `self.relations[0]` instead of returning null/absent, contradicting
the claim that no operation ever surfaces an exception. -/
theorem c3_counterexample :
    initE.relations = [] ∧
    initE.auth_url = .error .indexError ∧
    initE.region = .error .indexError ∧
    initE.username = .error .indexError ∧
    initE.password = .error .indexError ∧
    initE.user_domain_name = .error .indexError ∧
    initE.project_domain_name = .error .indexError ∧
    initE.project_name = .error .indexError ∧
    initE.endpoint_tls_ca = .error .indexError ∧
    initE.subnet_id = .error .indexError ∧
    initE.floating_network_id = .error .indexError ∧
    initE.lb_method = .error .indexError ∧
    initE.manage_security_groups = .error .indexError ∧
    initE.node_security_group = .error .indexError ∧
    initE.is_ready = .error .indexError :=
  ⟨rfl, rfl, rfl, rfl, rfl, rfl, rfl, rfl, rfl, rfl, rfl, rfl, rfl, rfl, rfl⟩

/-- C3 (corrected): with at least one active PeerConnection, every field
accessor returns its value without raising — missing fields surface as
null, absent `manage_security_groups` as False — and `is_ready` returns
its predicate value; only the zero-connection state raises, where every
accessor surfaces `IndexError`. -/
theorem c3_connected_accessors_no_raise (e : Endpoint) (pc : PeerConnection)
    (rest : List PeerConnection) (h : e.relations = pc :: rest) :
    e.auth_url = .ok pc.received.auth_url_v ∧
    e.region = .ok pc.received.region_v ∧
    e.username = .ok pc.received.username_v ∧
    e.password = .ok pc.received.password_v ∧
    e.user_domain_name = .ok pc.received.user_domain_name_v ∧
    e.project_domain_name = .ok pc.received.project_domain_name_v ∧
    e.project_name = .ok pc.received.project_name_v ∧
    e.endpoint_tls_ca = .ok pc.received.endpoint_tls_ca_v ∧
    e.subnet_id = .ok pc.received.subnet_id_v ∧
    e.floating_network_id = .ok pc.received.floating_network_id_v ∧
    e.lb_method = .ok pc.received.lb_method_v ∧
    e.manage_security_groups = .ok pc.received.manage_security_groups_v ∧
    e.node_security_group = .ok pc.received.node_security_group_v ∧
    e.is_ready = .ok pc.received.is_ready_v ∧
    (pc.received.manage_security_groups = Val.none →
      e.manage_security_groups = .ok (Val.bool false)) := by
  refine ⟨map_received e pc rest h _, map_received e pc rest h _,
    map_received e pc rest h _, map_received e pc rest h _,
    map_received e pc rest h _, map_received e pc rest h _,
    map_received e pc rest h _, map_received e pc rest h _,
    map_received e pc rest h _, map_received e pc rest h _,
    map_received e pc rest h _, map_received e pc rest h _,
    map_received e pc rest h _, map_received e pc rest h _, ?_⟩
  intro hm
  unfold Endpoint.manage_security_groups
  rw [map_received e pc rest h Received.manage_security_groups_v]
  unfold Received.manage_security_groups_v pyOr
  rw [hm]
  simp [truthy]

/-- C3 witness: Scenario A's endpoint has one connection; its accessors
return values without raising, `manage_security_groups` defaulting to
False. -/
theorem c3_witness :
    eScenarioA.auth_url = .ok (Val.str "u") ∧
    eScenarioA.region = .ok Val.none ∧
    eScenarioA.manage_security_groups = .ok (Val.bool false) :=
  have h := c3_connected_accessors_no_raise eScenarioA ⟨rScenarioA⟩ [] rfl
  ⟨h.1, h.2.1, h.2.2.2.2.2.2.2.2.2.2.2.2.2.2 rfl⟩

/-- C4 (confirmed): `remove_ready` clears the `ready` flag for every prior
flag state and FieldSet content, and consequently in every reachable
quiescent (observable) state of the flag machine the `ready` flag is never
true while `joined` is false — were it, the enabled `remove_ready` handler
would still change the state. -/
theorem c4_disconnected_never_ready :
    (∀ e : Endpoint, e.remove_ready.flags.ready = false) ∧
    (∀ e : Endpoint, Reachable e → Quiescent e → e.flags.joined = false →
      e.flags.ready = false) := by
  constructor
  · intro e
    rfl
  · intro e _ hq hj
    have h := hq e.remove_ready (HStep.remove_ready e hj)
    calc e.flags.ready = e.remove_ready.flags.ready := by rw [h]
    _ = false := rfl

/-- C4 witness: the initial state is reachable and quiescent, with
`joined` false; the theorem yields `ready` false there, and `remove_ready`
clears `ready` on a state where it was set. -/
theorem c4_witness :
    initE.flags.ready = false ∧
    (Endpoint.mk [⟨rScenarioA⟩] ⟨false, false, true⟩).remove_ready.flags.ready
      = false := by
  have hquiet : Quiescent initE := by
    intro e2 hs
    cases hs with
    | check_ready _ hg hr => exact absurd hg (by decide)
    | remove_ready hg => rfl
  exact ⟨c4_disconnected_never_ready.2 initE Reachable.init hquiet rfl,
    c4_disconnected_never_ready.1 (Endpoint.mk [⟨rScenarioA⟩] ⟨false, false, true⟩)⟩

/-- C5 (confirmed): whenever `check_ready` completes, it sets the `ready`
flag exactly when `is_ready` evaluates True on the current FieldSet,
clears it otherwise, clears the `changed` flag, and leaves the `joined`
flag and the relations untouched; it completes whenever a connection
exists; and the only other handler, `remove_ready`, never sets `ready`
(it only clears it) and touches no other flag, so `check_ready` is the
only operation that sets `ready`. -/
theorem c5_check_ready_effect :
    (∀ e e2 : Endpoint, e.check_ready = .ok e2 →
      (e2.flags.ready = true ↔ e.is_ready = .ok (Val.bool true)) ∧
      e2.flags.changed = false ∧
      e2.flags.joined = e.flags.joined ∧
      e2.relations = e.relations) ∧
    (∀ e : Endpoint, e.relations ≠ [] → ∃ e2, e.check_ready = .ok e2) ∧
    (∀ e : Endpoint,
      e.remove_ready.flags.ready = false ∧
      e.remove_ready.flags.joined = e.flags.joined ∧
      e.remove_ready.flags.changed = e.flags.changed ∧
      e.remove_ready.relations = e.relations) := by
  refine ⟨?_, ?_, ?_⟩
  · intro e e2 hok
    rcases he : e.relations with _ | ⟨pc, rest⟩
    · exfalso
      unfold Endpoint.check_ready Endpoint.is_ready Endpoint._received at hok
      rw [he] at hok
      simp [Except.map, Bind.bind, Except.bind] at hok
    · have hr := is_ready_eq e pc rest he
      unfold Endpoint.check_ready at hok
      rw [hr] at hok
      simp only [Bind.bind, Except.bind, pure, Except.pure,
        Except.ok.injEq] at hok
      subst hok
      refine ⟨?_, rfl, rfl, he⟩
      rw [hr, is_ready_v_eq_readyBool]
      simp [truthy]
  · intro e hne
    rcases he : e.relations with _ | ⟨pc, rest⟩
    · exact absurd he hne
    · unfold Endpoint.check_ready
      rw [is_ready_eq e pc rest he]
      exact ⟨_, rfl⟩
  · intro e
    exact ⟨rfl, rfl, rfl, rfl⟩

/-- C5 witness: running `check_ready` on Scenario A's endpoint with the
`changed` flag pending yields a state with `ready` set (matching
`is_ready` True), `changed` cleared, and `joined` and the relations
untouched. -/
theorem c5_witness :
    (eAfterCheckA.flags.ready = true ↔
      eChangedA.is_ready = .ok (Val.bool true)) ∧
    eAfterCheckA.flags.changed = false ∧
    eAfterCheckA.flags.joined = eChangedA.flags.joined ∧
    eAfterCheckA.relations = eChangedA.relations :=
  c5_check_ready_effect.1 eChangedA eAfterCheckA rfl

/-- C6 (confirmed): with an active connection, when the received
`manage_security_groups` field is absent the accessor returns False (never
null), and a FieldSet with all six required fields non-null is then ready
regardless of `node_security_group`'s value. -/
theorem c6_manage_absent_defaults_false (e : Endpoint) (pc : PeerConnection)
    (rest : List PeerConnection) (h : e.relations = pc :: rest)
    (hm : pc.received.manage_security_groups = Val.none) :
    e.manage_security_groups = .ok (Val.bool false) ∧
    (pc.received.auth_url ≠ Val.none → pc.received.username ≠ Val.none →
     pc.received.password ≠ Val.none →
     pc.received.user_domain_name ≠ Val.none →
     pc.received.project_domain_name ≠ Val.none →
     pc.received.project_name ≠ Val.none →
     e.is_ready = .ok (Val.bool true)) := by
  constructor
  · unfold Endpoint.manage_security_groups
    rw [map_received e pc rest h Received.manage_security_groups_v]
    unfold Received.manage_security_groups_v pyOr
    rw [hm]
    simp [truthy]
  · intro h1 h2 h3 h4 h5 h6
    rw [is_ready_eq e pc rest h, is_ready_v_eq_readyBool]
    have hb : readyBool pc.received = true := by
      unfold readyBool
      simp [hm, truthy, h1, h2, h3, h4, h5, h6]
    rw [hb]

/-- C6 witness: Scenario A has `manage_security_groups` absent and all six
required fields present; the accessor returns False and `is_ready` True. -/
theorem c6_witness :
    eScenarioA.manage_security_groups = .ok (Val.bool false) ∧
    eScenarioA.is_ready = .ok (Val.bool true) :=
  have h := c6_manage_absent_defaults_false eScenarioA ⟨rScenarioA⟩ [] rfl rfl
  ⟨h.1, h.2 (by decide) (by decide) (by decide) (by decide) (by decide)
    (by decide)⟩

/-- C7 (confirmed): evaluating `is_ready` is pure — its state-passing
rendering returns the state (flags and relations included) unchanged, two
consecutive evaluations with no intervening mutation return the same
value, and the value depends only on the relation data, not on the
flags. -/
theorem c7_is_ready_pure :
    (∀ e : Endpoint, e.is_ready_eval.2 = e) ∧
    (∀ e : Endpoint, e.is_ready_eval.2.is_ready_eval.1 = e.is_ready_eval.1) ∧
    (∀ e1 e2 : Endpoint, e1.relations = e2.relations →
      e1.is_ready = e2.is_ready) := by
  refine ⟨fun e => rfl, fun e => rfl, ?_⟩
  intro e1 e2 h12
  unfold Endpoint.is_ready Endpoint._received
  rw [h12]

/-- C7 witness: on Scenario A's endpoint, evaluation leaves the state
unchanged, and an endpoint with the same relations but different flags
evaluates `is_ready` to the same value. -/
theorem c7_witness :
    eScenarioA.is_ready_eval.2 = eScenarioA ∧
    eScenarioA.is_ready = (Endpoint.mk [⟨rScenarioA⟩] ⟨true, true, true⟩).is_ready :=
  ⟨c7_is_ready_pure.1 eScenarioA,
   c7_is_ready_pure.2.2 eScenarioA (Endpoint.mk [⟨rScenarioA⟩] ⟨true, true, true⟩) rfl⟩

/-- C8 (confirmed): the readiness predicate does not depend on the five
optional fields `region`, `endpoint_tls_ca`, `subnet_id`,
`floating_network_id`, `lb_method` — two FieldSets agreeing on the six
required fields, `manage_security_groups` and `node_security_group`
evaluate it identically. -/
theorem c8_is_ready_ignores_optional_fields (r1 r2 : Received)
    (h1 : r1.auth_url = r2.auth_url) (h2 : r1.username = r2.username)
    (h3 : r1.password = r2.password)
    (h4 : r1.user_domain_name = r2.user_domain_name)
    (h5 : r1.project_domain_name = r2.project_domain_name)
    (h6 : r1.project_name = r2.project_name)
    (h7 : r1.manage_security_groups = r2.manage_security_groups)
    (h8 : r1.node_security_group = r2.node_security_group) :
    r1.is_ready_v = r2.is_ready_v := by
  rw [is_ready_v_eq_readyBool, is_ready_v_eq_readyBool]
  unfold readyBool
  rw [h1, h2, h3, h4, h5, h6, h7, h8]

/-- C8 witness: Scenario A's FieldSet and its variant with all five
optional fields changed evaluate the predicate to the same value. -/
theorem c8_witness : rScenarioA.is_ready_v = rScenarioAOpt.is_ready_v :=
  c8_is_ready_ignores_optional_fields rScenarioA rScenarioAOpt
    rfl rfl rfl rfl rfl rfl rfl rfl

/-- C9 (confirmed): with an active connection, `endpoint_tls_ca` returns
null whenever the received value is falsy (absent, null, empty string,
False) and the received value unchanged otherwise — so an empty string is
never observable through it — while `region`, `subnet_id`,
`floating_network_id`, `lb_method` and `node_security_group` return the
received value verbatim. -/
theorem c9_endpoint_tls_ca_coercion (e : Endpoint) (pc : PeerConnection)
    (rest : List PeerConnection) (h : e.relations = pc :: rest) :
    (truthy pc.received.endpoint_tls_ca = false →
      e.endpoint_tls_ca = .ok Val.none) ∧
    (truthy pc.received.endpoint_tls_ca = true →
      e.endpoint_tls_ca = .ok pc.received.endpoint_tls_ca) ∧
    e.endpoint_tls_ca ≠ .ok (Val.str "") ∧
    e.region = .ok pc.received.region ∧
    e.subnet_id = .ok pc.received.subnet_id ∧
    e.floating_network_id = .ok pc.received.floating_network_id ∧
    e.lb_method = .ok pc.received.lb_method ∧
    e.node_security_group = .ok pc.received.node_security_group := by
  have hca : e.endpoint_tls_ca = .ok (pyOr pc.received.endpoint_tls_ca .none) := by
    unfold Endpoint.endpoint_tls_ca
    exact map_received e pc rest h _
  refine ⟨?_, ?_, ?_, ?_, ?_, ?_, ?_, ?_⟩
  · intro hf
    rw [hca]
    unfold pyOr
    rw [hf]
    simp
  · intro ht
    rw [hca]
    unfold pyOr
    rw [ht]
    simp
  · intro hEq
    rw [hca] at hEq
    unfold pyOr at hEq
    cases hc : truthy pc.received.endpoint_tls_ca with
    | false =>
      rw [hc] at hEq
      simp at hEq
    | true =>
      rw [hc] at hEq
      simp at hEq
      rw [hEq] at hc
      simp [truthy] at hc
  · unfold Endpoint.region
    exact map_received e pc rest h _
  · unfold Endpoint.subnet_id
    exact map_received e pc rest h _
  · unfold Endpoint.floating_network_id
    exact map_received e pc rest h _
  · unfold Endpoint.lb_method
    exact map_received e pc rest h _
  · unfold Endpoint.node_security_group
    exact map_received e pc rest h _

/-- C9 witness: with an empty-string `endpoint_tls_ca` and `subnet_id`
received, the former reads as null while the latter is the empty string
verbatim, and a non-empty `region` passes through unchanged. -/
theorem c9_witness :
    eOptionalStrings.endpoint_tls_ca = .ok Val.none ∧
    eOptionalStrings.subnet_id = .ok (Val.str "") ∧
    eOptionalStrings.region = .ok (Val.str "r1") :=
  have h := c9_endpoint_tls_ca_coercion eOptionalStrings ⟨rOptionalStrings⟩ [] rfl
  ⟨h.1 (by decide), h.2.2.2.2.1, h.2.2.2.1⟩

/-- C10 (confirmed): with an active connection, the
`manage_security_groups` accessor returns the received value itself when
it is truthy and False when it is falsy or absent; it never returns null,
but a truthy non-boolean received value (such as a non-empty string) is
returned unchanged rather than coerced to a boolean. -/
theorem c10_manage_security_groups_coercion (e : Endpoint)
    (pc : PeerConnection) (rest : List PeerConnection)
    (h : e.relations = pc :: rest) :
    (truthy pc.received.manage_security_groups = true →
      e.manage_security_groups = .ok pc.received.manage_security_groups) ∧
    (truthy pc.received.manage_security_groups = false →
      e.manage_security_groups = .ok (Val.bool false)) ∧
    e.manage_security_groups ≠ .ok Val.none ∧
    (pc.received.manage_security_groups = Val.str "yes" →
      e.manage_security_groups = .ok (Val.str "yes")) := by
  have hm : e.manage_security_groups
      = .ok (pyOr pc.received.manage_security_groups (.bool false)) := by
    unfold Endpoint.manage_security_groups
    exact map_received e pc rest h _
  refine ⟨?_, ?_, ?_, ?_⟩
  · intro ht
    rw [hm]
    unfold pyOr
    rw [ht]
    simp
  · intro hf
    rw [hm]
    unfold pyOr
    rw [hf]
    simp
  · intro hEq
    rw [hm] at hEq
    unfold pyOr at hEq
    cases hc : truthy pc.received.manage_security_groups with
    | false =>
      rw [hc] at hEq
      simp at hEq
    | true =>
      rw [hc] at hEq
      simp at hEq
      rw [hEq] at hc
      simp [truthy] at hc
  · intro hs
    rw [hm]
    unfold pyOr
    rw [hs]
    simp [truthy]

/-- C10 witness: the received string value "yes" for
`manage_security_groups` is truthy and returned unchanged, a non-boolean. -/
theorem c10_witness :
    eStringMsg.manage_security_groups = .ok (Val.str "yes") :=
  (c10_manage_security_groups_coercion eStringMsg ⟨rStringMsg⟩ [] rfl).2.2.2 rfl
